import Mathlib

/-!
Verification of the citation-tracking core of references.js: the citation
cluster creation protocol (cite, citeProp), the cited-id tracker, the
cached bibliography engines and bibliographyRaw, the reference-table
construction, and listener/observer disposal. The opaque collaborators
(the citeproc style engine and the citation-js importer) are parameters:
an engine preview is a function that may throw (Except.error), and an
engine instance is identified by the id scope it was built over.
-/

namespace RefsJs

/-- A JavaScript object as the citation code inspects it: the own
properties the tracked logic reads (id, and the two text fields the JS
source calls prefix and suffix, here pfx and sfx) are explicit Option
fields (none = no such own property); every other own property (mode,
locator, noteIndex, ...) sits in extra as string-valued entries and only
flows through to the opaque style engine. -/
structure CitationItemObj where
  id : Option String := none
  pfx : Option String := none
  sfx : Option String := none
  extra : List (String × String) := []
deriving DecidableEq

/-- A JavaScript value passed to a citation entry point: a string id, null,
or an object. Other primitives are not needed by the claims; for the
typeof-object test they behave like strings (typeof is not "object"). -/
inductive JSVal where
  | vstr (s : String)
  | vnull
  | vobj (o : CitationItemObj)
deriving DecidableEq

/-- typeof v === "object" (true for null, as in JavaScript). -/
def isTypeofObject : JSVal → Bool
  | .vstr _ => false
  | .vnull => true
  | .vobj _ => true

/-- Model of String(e) for the TypeError raised by accessing
hasOwnProperty on null. -/
def nullPropError : String := "TypeError: Cannot read properties of null"

/-- v.hasOwnProperty("id"): throws a TypeError when v is null. -/
def hasOwnId : JSVal → Except String Bool
  | .vnull => .error nullPropError
  | .vobj o => .ok o.id.isSome
  | .vstr _ => .ok false

/-- The trailing-argument test shared by the factory cite function and
Refs.citeProp: params.length, then typeof of the last argument is
"object", then not last.hasOwnProperty("id"). Short-circuit order matches
the source, so the property lookup (which throws on null) only runs when
the typeof test passed. -/
def lastArgIsProps (args : List JSVal) : Except String Bool :=
  match args.getLast? with
  | none => .ok false
  | some last =>
    if isTypeofObject last then
      match hasOwnId last with
      | .error e => .error e
      | .ok b => .ok (!b)
    else .ok false

/-- Normalisation of a raw citation argument into an object, first step of
wrapCitationItem: a string becomes an object with that string as id; an
object is shallow-copied; spreading null yields the empty object. -/
def rawToItem : JSVal → CitationItemObj
  | .vstr s => { id := some s }
  | .vnull => {}
  | .vobj o => o

/-- Template interpolation of a possibly-missing id (undefined prints as
the text "undefined"). -/
def idText : Option String → String
  | some s => s
  | none => "undefined"

/-- The anchor-opening template of wrapCitationItem. -/
def linkOpenStr (engineId idStr : String) : String :=
  "<a class=\"csl-link\" href=\"#" ++ idStr ++ "\" data-citation-engine-id=\"" ++
    engineId ++ "\">"

/-- The span-opening template of wrapCitationItem. -/
def spanOpenStr (engineId idStr : String) : String :=
  "<span class=\"csl-citation-item\" data-citation-engine-id=\"" ++ engineId ++
    "\" data-citation-item-id=\"" ++ idStr ++ "\">"

/-- wrapCitationItem from the source: copies the raw item, then overwrites
its two text fields with the span wrapper (unconditionally) and the anchor
markup (only when citation linking is enabled). -/
def wrapCitationItem (raw : JSVal) (engineId : String) (linkFlag : Bool) :
    CitationItemObj :=
  let item := rawToItem raw
  let prefixInner := item.pfx.getD ""
  let suffixInner := item.sfx.getD ""
  let linkStart := if linkFlag then linkOpenStr engineId (idText item.id) else ""
  let linkEnd := if linkFlag then "</a>" else ""
  { item with
    pfx := some (spanOpenStr engineId (idText item.id) ++ prefixInner ++ linkStart),
    sfx := some (linkEnd ++ suffixInner ++ "</span>") }

/-- Set.add on the insertion-ordered duplicate-free list modelling the
citedIds JavaScript Set. -/
def setAdd (l : List String) (s : String) : List String :=
  if s ∈ l then l else l ++ [s]

/-- Truthiness of a wrapped item id, as tested by ci && ci.id: the id
property is present and is a non-empty string. -/
def truthyId (o : CitationItemObj) : Bool :=
  match o.id with
  | some s => s != ""
  | none => false

/-- The id that the recording loop of cite stores for one raw argument,
when there is one (wrapping does not change the id). -/
def recordedId (v : JSVal) : Option String :=
  match (rawToItem v).id with
  | some s => if s = "" then none else some s
  | none => none

/-- recordedId as a zero- or one-element list. -/
def recordedIds (v : JSVal) : List String := (recordedId v).toList

/-- Assignment of a computed key on a tracked object. Later assignments
win, as with JavaScript property writes. -/
def assocSet (l : List (String × String)) (k v : String) :
    List (String × String) :=
  l.filter (fun p => p.1 != k) ++ [(k, v)]

/-- Update of a single string-valued property on a tracked object, routing
the three explicitly-modelled property names to their fields. -/
def objSet (o : CitationItemObj) (k v : String) : CitationItemObj :=
  if k = "id" then { o with id := some v }
  else if k = "prefix" then { o with pfx := some v }
  else if k = "suffix" then { o with sfx := some v }
  else { o with extra := assocSet o.extra k v }

/-- The citation cluster built by cite and handed to the style engine. -/
structure CitationCluster where
  citationItems : List CitationItemObj
  properties : CitationItemObj
deriving DecidableEq

/-- The mutable closure state of citationFactory that the claims track:
the cited-id set, the last cache key, and the two cached bibliography
engines, each identified by the id scope it was built over. -/
structure FactoryState where
  citedIds : List String := []
  lastCitedKey : String := ""
  cachedOffline : Option (List String) := none
  cachedShowAll : Option (List String) := none
deriving DecidableEq

/-- The state right after citationFactory returns. -/
def initState : FactoryState := {}

/-- What a citation entry point hands back: a rendered cluster element, or
the inline error marker built in the catch branch. -/
inductive CiteResult where
  | cluster (html : String) (cl : CitationCluster)
  | errMarker (txt : String)
deriving DecidableEq

/-- The two entity replacements applied to the preview markup. -/
def htmlUnescape (s : String) : String :=
  (s.replace "&#60;" "<").replace "&#62;" ">"

/-- The id-recording loop of cite: for each wrapped item with a truthy id,
add that id to the cited-id set. -/
def recordCited (acc : List String) (wrapped : List CitationItemObj) :
    List String :=
  wrapped.foldl
    (fun acc it => if truthyId it then setAdd acc (it.id.getD "") else acc) acc

/-- The factory cite function. The opaque inline-engine preview is the
parameter pv; a JavaScript throw is Except.error. Mirrors the source
order inside the try block: classify the trailing properties argument,
set noteIndex, wrap the items, record the cited ids, then preview. The
whole body is inside try/catch, so any throw yields the inline error
marker - but ids recorded before a preview throw remain recorded. -/
def citeM (pv : CitationCluster → Except String String) (engineId : String)
    (linkFlag : Bool) (st : FactoryState) (args : List JSVal) :
    FactoryState × CiteResult :=
  match lastArgIsProps args with
  | .error e => (st, .errMarker ("Citation error: " ++ e))
  | .ok takeProps =>
    let props0 : CitationItemObj :=
      if takeProps then
        match args.getLast? with
        | some (.vobj o) => o
        | _ => {}
      else {}
    let props := { props0 with extra := assocSet props0.extra "noteIndex" "0" }
    let items := if takeProps then args.dropLast else args
    let wrapped := items.map (fun r => wrapCitationItem r engineId linkFlag)
    let cited := recordCited st.citedIds wrapped
    let st1 := { st with citedIds := cited }
    let cl : CitationCluster := { citationItems := wrapped, properties := props }
    match pv cl with
    | .error e => (st1, .errMarker ("Citation error: " ++ e))
    | .ok html => (st1, .cluster (htmlUnescape html) cl)

/-- Refs.citeProp(k, v, ...params): pops a trailing properties object and
merges the fixed key into it before delegating to the factory cite
function. The trailing-argument test runs OUTSIDE any try/catch here, so
the TypeError on a null trailing argument propagates to the caller. -/
def citePropM (pv : CitationCluster → Except String String) (engineId : String)
    (linkFlag : Bool) (k v : String) (st : FactoryState) (params : List JSVal) :
    Except String (FactoryState × CiteResult) :=
  match lastArgIsProps params with
  | .error e => .error e
  | .ok true =>
    let cProps :=
      match params.getLast? with
      | some (.vobj o) => o
      | _ => {}
    .ok (citeM pv engineId linkFlag st
      (params.dropLast ++ [JSVal.vobj (objSet cProps k v)]))
  | .ok false =>
    .ok (citeM pv engineId linkFlag st
      (params ++ [JSVal.vobj (objSet {} k v)]))

/-- A sequence of factory cite calls threaded through the tracker state. -/
def runCites (pv : CitationCluster → Except String String) (engineId : String)
    (linkFlag : Bool) (st : FactoryState) (calls : List (List JSVal)) :
    FactoryState :=
  calls.foldl (fun s args => (citeM pv engineId linkFlag s args).1) st

/-- Lexicographic comparison of character lists, modelling the comparator
the default JavaScript Array.prototype.sort applies to strings. -/
def charsLe : List Char → List Char → Bool
  | [], _ => true
  | _ :: _, [] => false
  | a :: as, b :: bs => if a < b then true else if b < a then false else charsLe as bs

/-- The string order used by the cache-key sort. -/
def jsLe (a b : String) : Prop := charsLe a.data b.data = true

instance : DecidableRel jsLe :=
  fun a b => inferInstanceAs (Decidable (charsLe a.data b.data = true))

theorem charsLe_cons {a b : Char} {as bs : List Char} :
    charsLe (a :: as) (b :: bs) = true ↔ a < b ∨ (a = b ∧ charsLe as bs = true) := by
  rcases lt_trichotomy a b with h | h | h
  · simp [charsLe, h]
  · subst h; simp [charsLe, lt_irrefl]
  · simp [charsLe, h, lt_asymm h]
    intro he
    exact absurd (he ▸ h) (lt_irrefl a)

theorem charsLe_total : ∀ as bs : List Char, charsLe as bs = true ∨ charsLe bs as = true
  | [], _ => Or.inl rfl
  | _ :: _, [] => Or.inr rfl
  | a :: as, b :: bs => by
    rcases lt_trichotomy a b with h | h | h
    · exact Or.inl (charsLe_cons.mpr (Or.inl h))
    · rcases charsLe_total as bs with ih | ih
      · exact Or.inl (charsLe_cons.mpr (Or.inr ⟨h, ih⟩))
      · exact Or.inr (charsLe_cons.mpr (Or.inr ⟨h.symm, ih⟩))
    · exact Or.inr (charsLe_cons.mpr (Or.inl h))

theorem charsLe_trans : ∀ as bs cs : List Char,
    charsLe as bs = true → charsLe bs cs = true → charsLe as cs = true
  | [], _, _ => fun _ _ => rfl
  | _ :: _, [], _ => fun h _ => by simp [charsLe] at h
  | _ :: _, _ :: _, [] => fun _ h => by simp [charsLe] at h
  | a :: as, b :: bs, c :: cs => fun h1 h2 => by
    rcases charsLe_cons.mp h1 with hab | ⟨hab, w1⟩
    · rcases charsLe_cons.mp h2 with hbc | ⟨hbc, _⟩
      · exact charsLe_cons.mpr (Or.inl (lt_trans hab hbc))
      · exact charsLe_cons.mpr (Or.inl (hbc ▸ hab))
    · rcases charsLe_cons.mp h2 with hbc | ⟨hbc, w2⟩
      · exact charsLe_cons.mpr (Or.inl (hab ▸ hbc))
      · exact charsLe_cons.mpr (Or.inr ⟨hab.trans hbc, charsLe_trans as bs cs w1 w2⟩)

theorem charsLe_antisymm : ∀ as bs : List Char,
    charsLe as bs = true → charsLe bs as = true → as = bs
  | [], [], _, _ => rfl
  | [], _ :: _, _, h => by simp [charsLe] at h
  | _ :: _, [], h, _ => by simp [charsLe] at h
  | a :: as, b :: bs, h1, h2 => by
    rcases charsLe_cons.mp h1 with hab | ⟨hab, w1⟩
    · rcases charsLe_cons.mp h2 with hba | ⟨hba, _⟩
      · exact absurd hba (lt_asymm hab)
      · exact absurd (hba ▸ hab) (lt_irrefl b)
    · rcases charsLe_cons.mp h2 with hba | ⟨hba, w2⟩
      · exact absurd (hab ▸ hba) (lt_irrefl b)
      · rw [hab, charsLe_antisymm as bs w1 w2]

theorem jsLe_total : ∀ a b : String, jsLe a b ∨ jsLe b a :=
  fun a b => charsLe_total a.data b.data

theorem jsLe_trans : ∀ a b c : String, jsLe a b → jsLe b c → jsLe a c :=
  fun a b c => charsLe_trans a.data b.data c.data

theorem jsLe_antisymm : ∀ a b : String, jsLe a b → jsLe b a → a = b := by
  intro a b h1 h2
  have h := charsLe_antisymm a.data b.data h1 h2
  cases a; cases b
  exact congrArg String.mk h

/-- Array.from(citedIds).sort().join("|"). -/
def citedKey (ids : List String) : String :=
  String.intercalate "|" (List.insertionSort jsLe ids)

/-- cite.bibliographyRaw. The opaque engine render pass (cluster
reprocessing, makeBibliography and markup assembly) is the parameter
render, applied to the id scope of the engine the cache selected. The
sentinel strings, the order of the early returns and the cache
invalidation logic are from the source. -/
def bibliographyRawM (render : List String → String)
    (referenceIds : List String) (st : FactoryState)
    (showAll showNone : Bool) : FactoryState × String :=
  if referenceIds.isEmpty then (st, "<b>No references?</b>")
  else if showNone then (st, "")
  else if showAll then
    let scope := st.cachedShowAll.getD referenceIds
    ({ st with cachedShowAll := some scope }, render scope)
  else if st.citedIds.isEmpty then (st, "<b>No citations!</b>")
  else
    let sorted := List.insertionSort jsLe st.citedIds
    let key := String.intercalate "|" sorted
    if key != st.lastCitedKey || st.cachedOffline.isNone then
      ({ st with cachedOffline := some sorted, lastCitedKey := key },
        render sorted)
    else (st, render (st.cachedOffline.getD sorted))

/-- The shapes a title field of a CSL-JSON entry element can take inside an
array: a plain string, or an object whose own title property (string, or
absent/falsy) is read. -/
inductive TitlePart where
  | tstr (s : String)
  | tobj (t : Option String)
deriving DecidableEq

/-- The shapes the title field of a CSL-JSON entry can take, as the Refs
constructor ladder distinguishes them: missing (or any non-string
non-object value), a string, an array, or an object. -/
inductive TitleVal where
  | undef
  | tstr (s : String)
  | tarr (parts : List TitlePart)
  | tobj (t : Option String)
deriving DecidableEq

/-- One parsed reference as stored in referenceMap (the fields the
reference-table construction reads). -/
structure CSLRef where
  id : String
  title : TitleVal
  type : String
deriving DecidableEq

/-- One row of refObject / refTableRaw. -/
structure RefEntry where
  name : String
  title : String
  type : String
deriving DecidableEq

/-- Text of one array element of a title: a string stays, an object
contributes its title property or the empty string. -/
def titlePartText : TitlePart → String
  | .tstr s => s
  | .tobj t => t.getD ""

/-- The title-extraction ladder of the Refs constructor. -/
def extractTitle : TitleVal → String
  | .undef => ""
  | .tstr s => s
  | .tarr parts => String.intercalate "; " (parts.map titlePartText)
  | .tobj t => t.getD ""

/-- title.replace of every brace character with the empty string. -/
def stripBraces (s : String) : String :=
  String.mk (s.data.filter (fun c => c != '\x7b' && c != '\x7d'))

/-- refObject as the Refs constructor builds it from
referenceMap.values(), in Map insertion order. -/
def refObjectOfMap (refs : List CSLRef) : List RefEntry :=
  refs.map (fun r =>
    { name := r.id, title := stripBraces (extractTitle r.title), type := r.type })

/-- The name of the per-session citation-changed event. -/
def CITATION_UPDATED : String := "refs:citation-updated"

/-- One bibliography container as returned by Refs.bibliography: the
identities of its citation-changed document listener, its
cluster-insertion observer, and its per-cluster mutation observers. -/
structure BibContainer where
  citListenerId : Nat
  insertionObserverId : Nat
  clusterObserverIds : List Nat
deriving DecidableEq

/-- A session (a Refs instance plus its citationFactory closure) as the
disposal logic sees it: the optional global click-to-scroll listener and
the set of still-live bibliography containers. -/
structure SessionState where
  clickListenerId : Option Nat
  containers : List BibContainer
deriving DecidableEq

/-- The document-global registries the session touches: event listeners
(event name paired with listener identity) and connected mutation
observers. -/
structure DocState where
  eventListeners : List (String × Nat)
  connectedObservers : List Nat
deriving DecidableEq

/-- document.removeEventListener: drops the matching registration. -/
def removeEventListener (d : DocState) (ev : String) (lid : Nat) : DocState :=
  { d with eventListeners := d.eventListeners.filter (fun p => p != (ev, lid)) }

/-- MutationObserver.disconnect. -/
def disconnectObserver (d : DocState) (oid : Nat) : DocState :=
  { d with connectedObservers := d.connectedObservers.filter (fun o => o != oid) }

/-- Model of String(e) for the TypeError raised by calling values() on a
WeakMap, which has no such method. -/
def weakMapValuesError : String :=
  "TypeError: clusterObservers.values is not a function"

/-- container.dispose from Refs.bibliography: deregisters the
citation-changed listener and disconnects the cluster-insertion observer;
the source then iterates clusterObservers.values() to disconnect the
per-cluster observers, but clusterObservers is a WeakMap, which has no
values() method, so that call throws a TypeError: the per-cluster
observers are never disconnected (the disconnect loop is dead code) and
the wrapped dispose never reaches the step that deletes the container
from the session set. -/
def containerDispose (c : BibContainer) (d : DocState) :
    DocState × Except String Unit :=
  let d1 := removeEventListener d CITATION_UPDATED c.citListenerId
  let d2 := disconnectObserver d1 c.insertionObserverId
  (d2, .error weakMapValuesError)

/-- cite.dispose: remove the global click-to-scroll listener when one was
registered, and null the removal hook. -/
def citeFacDispose (s : SessionState) (d : DocState) : SessionState × DocState :=
  match s.clickListenerId with
  | some lid => ({ s with clickListenerId := none }, removeEventListener d "click" lid)
  | none => (s, d)

/-- The loop of Refs.dispose over the still-live bibliography containers:
each container is disposed in turn, and a throw aborts the loop,
propagating together with the document state mutated so far. -/
def disposeContainers : List BibContainer → DocState →
    DocState × Except String Unit
  | [], d => (d, .ok ())
  | c :: rest, d =>
    match containerDispose c d with
    | (d1, .error e) => (d1, .error e)
    | (d1, .ok _) => disposeContainers rest d1

/-- Refs.dispose: dispose the factory, then dispose each still-live
bibliography container, then clear the container set. There is no
try/catch here, so the TypeError thrown by the first container.dispose
(see containerDispose) propagates out of dispose before the set is
cleared; only a session with no live containers completes. -/
def sessionDispose (s : SessionState) (d : DocState) :
    (SessionState × DocState) × Except String Unit :=
  let sd := citeFacDispose s d
  match disposeContainers sd.1.containers sd.2 with
  | (d2, .error e) => ((sd.1, d2), .error e)
  | (d2, .ok _) => (({ sd.1 with containers := [] }, d2), .ok ())

/-- The listeners a document-level event dispatch (as performed by a cite
call) invokes for a given event name. -/
def listenersFor (d : DocState) (ev : String) : List Nat :=
  d.eventListeners.filterMap (fun p => if p.1 = ev then some p.2 else none)

/-! Helper lemmas about the cited-id tracker. -/

theorem mem_setAdd {l : List String} {s x : String} :
    x ∈ setAdd l s ↔ x ∈ l ∨ x = s := by
  unfold setAdd
  split
  · rename_i hs
    constructor
    · exact Or.inl
    · rintro (h | rfl)
      · exact h
      · exact hs
  · simp

theorem nodup_setAdd {l : List String} (s : String) (h : l.Nodup) :
    (setAdd l s).Nodup := by
  unfold setAdd
  split
  · exact h
  · rename_i hs
    simpa [List.nodup_append] using ⟨h, hs⟩

theorem subset_setAdd (l : List String) (s : String) : l ⊆ setAdd l s :=
  fun _ hx => mem_setAdd.mpr (Or.inl hx)

theorem subset_recordCited :
    ∀ (wrapped : List CitationItemObj) (acc : List String),
      acc ⊆ recordCited acc wrapped
  | [], _ => fun _ h => h
  | it :: l, acc => by
    intro x hx
    show x ∈ recordCited (if truthyId it then setAdd acc (it.id.getD "") else acc) l
    apply subset_recordCited l
    split
    · exact subset_setAdd acc _ hx
    · exact hx

theorem mem_recordCited :
    ∀ (wrapped : List CitationItemObj) (acc : List String) (x : String),
      x ∈ recordCited acc wrapped →
        x ∈ acc ∨ ∃ it ∈ wrapped, truthyId it = true ∧ x = it.id.getD ""
  | [], _, _ => fun h => Or.inl h
  | it :: l, acc, x => by
    intro h
    have h2 := mem_recordCited l (if truthyId it then setAdd acc (it.id.getD "") else acc) x h
    rcases h2 with h2 | ⟨it2, h2, ht, he⟩
    · by_cases hi : truthyId it
      · rw [if_pos hi] at h2
        rcases mem_setAdd.mp h2 with h3 | h3
        · exact Or.inl h3
        · exact Or.inr ⟨it, List.mem_cons_self it l, hi, h3⟩
      · rw [if_neg hi] at h2
        exact Or.inl h2
    · exact Or.inr ⟨it2, List.mem_cons_of_mem it h2, ht, he⟩

theorem nodup_recordCited :
    ∀ (wrapped : List CitationItemObj) (acc : List String),
      acc.Nodup → (recordCited acc wrapped).Nodup
  | [], _ => fun h => h
  | it :: l, acc => by
    intro h
    show (recordCited (if truthyId it then setAdd acc (it.id.getD "") else acc) l).Nodup
    apply nodup_recordCited l
    split
    · exact nodup_setAdd _ h
    · exact h

/-- Wrapping a raw argument keeps its id. -/
theorem wrap_id (raw : JSVal) (engineId : String) (flag : Bool) :
    (wrapCitationItem raw engineId flag).id = (rawToItem raw).id := rfl

/-- A wrapped item with a truthy id records exactly the id computed by
recordedIds for the raw argument. -/
theorem truthy_wrap_recorded (v : JSVal) (engineId : String) (flag : Bool)
    (h : truthyId (wrapCitationItem v engineId flag) = true) :
    (wrapCitationItem v engineId flag).id.getD "" ∈ recordedIds v := by
  rw [truthyId, wrap_id] at h
  rw [wrap_id]
  cases hv : (rawToItem v).id with
  | none => rw [hv] at h; cases h
  | some s =>
    rw [hv] at h
    have hs : s ≠ "" := by simpa using h
    simp [recordedIds, recordedId, hv, hs]

/-- cite never touches the cache key or the cached engines, whether it
succeeds or returns the error marker. -/
theorem citeM_state (pv : CitationCluster → Except String String)
    (engineId : String) (flag : Bool) (st : FactoryState) (args : List JSVal) :
    (citeM pv engineId flag st args).1.lastCitedKey = st.lastCitedKey
    ∧ (citeM pv engineId flag st args).1.cachedOffline = st.cachedOffline
    ∧ (citeM pv engineId flag st args).1.cachedShowAll = st.cachedShowAll := by
  unfold citeM
  split
  · exact ⟨rfl, rfl, rfl⟩
  · dsimp only
    split <;> exact ⟨rfl, rfl, rfl⟩

/-- cite only grows the cited-id set, and only by ids recorded from its
own arguments. -/
theorem citeM_citedIds (pv : CitationCluster → Except String String)
    (engineId : String) (flag : Bool) (st : FactoryState) (args : List JSVal) :
    st.citedIds ⊆ (citeM pv engineId flag st args).1.citedIds
    ∧ ∀ x ∈ (citeM pv engineId flag st args).1.citedIds,
        x ∈ st.citedIds ∨ ∃ v ∈ args, x ∈ recordedIds v := by
  unfold citeM
  split
  · exact ⟨fun _ h => h, fun x hx => Or.inl hx⟩
  · rename_i takeProps _
    dsimp only
    have key : ∀ r : FactoryState × CiteResult,
        r.1.citedIds = recordCited st.citedIds
          ((if takeProps then args.dropLast else args).map
            (fun r => wrapCitationItem r engineId flag)) →
        st.citedIds ⊆ r.1.citedIds
        ∧ ∀ x ∈ r.1.citedIds,
            x ∈ st.citedIds ∨ ∃ v ∈ args, x ∈ recordedIds v := by
      intro r hr
      constructor
      · rw [hr]; exact subset_recordCited _ _
      · intro x hx
        rw [hr] at hx
        rcases mem_recordCited _ _ _ hx with h | ⟨it, hit, ht, he⟩
        · exact Or.inl h
        · rcases List.mem_map.mp hit with ⟨v, hv, rfl⟩
          refine Or.inr ⟨v, ?_, he ▸ truthy_wrap_recorded v engineId flag ht⟩
          by_cases htp : takeProps
          · rw [if_pos htp] at hv
            exact (List.dropLast_sublist _).subset hv
          · rw [if_neg htp] at hv
            exact hv
    split
    · exact key _ rfl
    · exact key _ rfl

/-- cite keeps the cited-id set duplicate-free. -/
theorem citeM_nodup (pv : CitationCluster → Except String String)
    (engineId : String) (flag : Bool) (st : FactoryState) (args : List JSVal)
    (h : st.citedIds.Nodup) : (citeM pv engineId flag st args).1.citedIds.Nodup := by
  unfold citeM
  split
  · exact h
  · dsimp only
    split <;> exact nodup_recordCited _ _ h

theorem runCites_nodup (pv : CitationCluster → Except String String)
    (engineId : String) (flag : Bool) :
    ∀ (calls : List (List JSVal)) (st : FactoryState),
      st.citedIds.Nodup → (runCites pv engineId flag st calls).citedIds.Nodup
  | [], _ => fun h => h
  | args :: rest, st => by
    intro h
    exact runCites_nodup pv engineId flag rest _ (citeM_nodup pv engineId flag st args h)

/-- The cache key is canonical: two duplicate-free id lists with the same
underlying set sort to the same list, hence to the same key. -/
theorem citedKey_eq_of_set_eq {l1 l2 : List String} (n1 : l1.Nodup)
    (n2 : l2.Nodup) (h : l1.toFinset = l2.toFinset) : citedKey l1 = citedKey l2 := by
  have hp : l1.Perm l2 := List.perm_of_nodup_nodup_toFinset_eq n1 n2 h
  have hp2 : (List.insertionSort jsLe l1).Perm (List.insertionSort jsLe l2) :=
    ((List.perm_insertionSort jsLe l1).trans hp).trans
      (List.perm_insertionSort jsLe l2).symm
  haveI : IsTotal String jsLe := ⟨jsLe_total⟩
  haveI : IsTrans String jsLe := ⟨fun a b c => jsLe_trans a b c⟩
  haveI : IsAntisymm String jsLe := ⟨fun a b => jsLe_antisymm a b⟩
  have e : List.insertionSort jsLe l1 = List.insertionSort jsLe l2 :=
    List.eq_of_perm_of_sorted hp2 (List.sorted_insertionSort jsLe l1)
      (List.sorted_insertionSort jsLe l2)
  unfold citedKey
  rw [e]

/-! The claims. -/

/-- C1 (counterexample): the Cited-Id Set is NOT always a subset of the
Reference Store id set. In a session whose store holds only the id r1,
a single cite call for the unknown id x puts x into citedIds, which is
then not a subset of the store: cite records ids without consulting the
reference map. -/
theorem cited_id_escapes_store :
    ¬ (∀ id ∈ (runCites (fun _ => Except.ok "") "E" true initState
          [[JSVal.vstr "x"]]).citedIds, id ∈ (["r1"] : List String)) := by
  decide

/-- C1 (amended): the Cited-Id Set stays a subset of the Reference Store
id set provided every cite call only passes citation items whose recorded
id is a key of the store; in general citedIds only ever contains ids
recorded from cite arguments. -/
theorem citedIds_subset_of_store (pv : CitationCluster → Except String String)
    (engineId : String) (flag : Bool) (refIds : List String)
    (calls : List (List JSVal))
    (h : ∀ args ∈ calls, ∀ v ∈ args, recordedIds v ⊆ refIds) :
    ∀ x ∈ (runCites pv engineId flag initState calls).citedIds, x ∈ refIds := by
  suffices step : ∀ (calls : List (List JSVal)) (st : FactoryState),
      (∀ x ∈ st.citedIds, x ∈ refIds) →
      (∀ args ∈ calls, ∀ v ∈ args, recordedIds v ⊆ refIds) →
      ∀ x ∈ (runCites pv engineId flag st calls).citedIds, x ∈ refIds by
    exact step calls initState (by intro x hx; cases hx) h
  intro calls
  induction calls with
  | nil => intro st hst _ x hx; exact hst x hx
  | cons args rest ih =>
    intro st hst hcalls x hx
    refine ih (citeM pv engineId flag st args).1 ?_
      (fun a ha => hcalls a (List.mem_cons_of_mem _ ha)) x hx
    intro y hy
    rcases (citeM_citedIds pv engineId flag st args).2 y hy with h1 | ⟨v, hv, hrec⟩
    · exact hst y h1
    · exact hcalls args (List.mem_cons_self _ _) v hv hrec

/-- Witness for C1 (amended) at a concrete run: citing the known id r1. -/
theorem citedIds_subset_of_store_witness :
    (∀ args ∈ ([[JSVal.vstr "r1"]] : List (List JSVal)), ∀ v ∈ args,
      recordedIds v ⊆ (["r1"] : List String))
    ∧ ∀ x ∈ (runCites (fun _ => Except.ok "") "E" true initState
        [[JSVal.vstr "r1"]]).citedIds, x ∈ (["r1"] : List String) :=
  ⟨by decide,
    citedIds_subset_of_store (fun _ => Except.ok "") "E" true ["r1"]
      [[JSVal.vstr "r1"]] (by decide)⟩

/-- C2 (counterexample): a cite call that fails because the engine throws
during preview does NOT leave the tracker unchanged: the item ids are
recorded into citedIds before the preview runs, so after the error branch
returns the inline marker, citedIds has grown from empty to the singleton
a. -/
theorem cite_preview_error_mutates_tracker :
    (citeM (fun _ => Except.error "boom") "E" true initState [JSVal.vstr "a"]).2
      = CiteResult.errMarker "Citation error: boom"
    ∧ (citeM (fun _ => Except.error "boom") "E" true initState
        [JSVal.vstr "a"]).1.citedIds ≠ initState.citedIds := by
  decide

/-- C2 (amended): when a cite call returns the inline error marker, the
cache state (lastCitedKey and both cached engines) is exactly what it was
before the call, and citedIds is unchanged except that ids recorded from
items of the failing call before the throw may have been added. -/
theorem cite_error_preserves_caches (pv : CitationCluster → Except String String)
    (engineId : String) (flag : Bool) (st : FactoryState) (args : List JSVal)
    (t : String) (_h : (citeM pv engineId flag st args).2 = CiteResult.errMarker t) :
    (citeM pv engineId flag st args).1.lastCitedKey = st.lastCitedKey
    ∧ (citeM pv engineId flag st args).1.cachedOffline = st.cachedOffline
    ∧ (citeM pv engineId flag st args).1.cachedShowAll = st.cachedShowAll
    ∧ st.citedIds ⊆ (citeM pv engineId flag st args).1.citedIds
    ∧ ∀ x ∈ (citeM pv engineId flag st args).1.citedIds,
        x ∈ st.citedIds ∨ ∃ v ∈ args, x ∈ recordedIds v := by
  refine ⟨(citeM_state pv engineId flag st args).1,
    (citeM_state pv engineId flag st args).2.1,
    (citeM_state pv engineId flag st args).2.2,
    (citeM_citedIds pv engineId flag st args).1,
    (citeM_citedIds pv engineId flag st args).2⟩

/-- Witness for C2 (amended) at the concrete preview-throw run. -/
theorem cite_error_preserves_caches_witness :
    ((citeM (fun _ => Except.error "boom") "E" true initState [JSVal.vstr "a"]).2
      = CiteResult.errMarker "Citation error: boom")
    ∧ ((citeM (fun _ => Except.error "boom") "E" true initState
          [JSVal.vstr "a"]).1.lastCitedKey = initState.lastCitedKey
      ∧ (citeM (fun _ => Except.error "boom") "E" true initState
          [JSVal.vstr "a"]).1.cachedOffline = initState.cachedOffline
      ∧ (citeM (fun _ => Except.error "boom") "E" true initState
          [JSVal.vstr "a"]).1.cachedShowAll = initState.cachedShowAll
      ∧ initState.citedIds ⊆ (citeM (fun _ => Except.error "boom") "E" true
          initState [JSVal.vstr "a"]).1.citedIds
      ∧ ∀ x ∈ (citeM (fun _ => Except.error "boom") "E" true initState
          [JSVal.vstr "a"]).1.citedIds,
          x ∈ initState.citedIds ∨ ∃ v ∈ [JSVal.vstr "a"], x ∈ recordedIds v) :=
  ⟨by decide,
    cite_error_preserves_caches (fun _ => Except.error "boom") "E" true initState
      [JSVal.vstr "a"] "Citation error: boom" (by decide)⟩

/-- C3: citation creation CAN throw, contradicting the spec sentence that
it must never throw (a code bug): Refs.citeProp runs the trailing-argument
test outside any try/catch, so calling the cite or citeeg wrapper with a
null trailing argument propagates the TypeError from
null.hasOwnProperty to the caller - while the factory cite function,
whose body is inside try/catch, converts the very same failure into the
inline error marker. -/
theorem citeProp_null_throws :
    citePropM (fun _ => Except.ok "") "E" true "mode" "composite" initState
      [JSVal.vnull] = Except.error nullPropError
    ∧ (citeM (fun _ => Except.ok "") "E" true initState [JSVal.vnull]).2
      = CiteResult.errMarker ("Citation error: " ++ nullPropError) :=
  ⟨rfl, rfl⟩

/-- C4: the cited-engine cache key depends only on the final set of cited
ids: any two sequences of cite calls (under any preview engines, engine
ids and linking flags) whose runs end with the same cited-id set produce
the same sorted-and-joined key. -/
theorem citedKey_depends_only_on_set (pv1 pv2 : CitationCluster → Except String String)
    (e1 e2 : String) (f1 f2 : Bool) (calls1 calls2 : List (List JSVal))
    (h : (runCites pv1 e1 f1 initState calls1).citedIds.toFinset
      = (runCites pv2 e2 f2 initState calls2).citedIds.toFinset) :
    citedKey (runCites pv1 e1 f1 initState calls1).citedIds
      = citedKey (runCites pv2 e2 f2 initState calls2).citedIds :=
  citedKey_eq_of_set_eq
    (runCites_nodup pv1 e1 f1 calls1 initState List.nodup_nil)
    (runCites_nodup pv2 e2 f2 calls2 initState List.nodup_nil) h

/-- Witness for C4: citing B, A then C yields the same key as citing
A, B, C one per cluster. -/
theorem citedKey_depends_only_on_set_witness :
    ((runCites (fun _ => Except.ok "") "E" true initState
        [[JSVal.vstr "B", JSVal.vstr "A"], [JSVal.vstr "C"]]).citedIds.toFinset
      = (runCites (fun _ => Except.ok "") "F" false initState
        [[JSVal.vstr "A"], [JSVal.vstr "B"], [JSVal.vstr "C"]]).citedIds.toFinset)
    ∧ citedKey (runCites (fun _ => Except.ok "") "E" true initState
        [[JSVal.vstr "B", JSVal.vstr "A"], [JSVal.vstr "C"]]).citedIds
      = citedKey (runCites (fun _ => Except.ok "") "F" false initState
        [[JSVal.vstr "A"], [JSVal.vstr "B"], [JSVal.vstr "C"]]).citedIds :=
  ⟨by decide,
    citedKey_depends_only_on_set (fun _ => Except.ok "") (fun _ => Except.ok "")
      "E" "F" true false [[JSVal.vstr "B", JSVal.vstr "A"], [JSVal.vstr "C"]]
      [[JSVal.vstr "A"], [JSVal.vstr "B"], [JSVal.vstr "C"]] (by decide)⟩

/-- C5 (counterexample): the reference-list operation does NOT return
entries sorted by id with non-empty brace-stripped titles: refObject is
built from referenceMap.values() in Map insertion order, so a store whose
importer yields id b before id a produces the names b, a (unsorted), and
an entry whose source has no title field gets the empty title. -/
theorem refTable_claim_fails :
    ¬ ((refObjectOfMap [⟨"b", TitleVal.tstr "T", "article-journal"⟩,
          ⟨"a", TitleVal.undef, "article-journal"⟩]).length = 2
      ∧ List.Sorted jsLe ((refObjectOfMap [⟨"b", TitleVal.tstr "T", "article-journal"⟩,
          ⟨"a", TitleVal.undef, "article-journal"⟩]).map (fun e => e.name))
      ∧ ∀ e ∈ refObjectOfMap [⟨"b", TitleVal.tstr "T", "article-journal"⟩,
          ⟨"a", TitleVal.undef, "article-journal"⟩], e.title ≠ "") := by
  decide

/-- C5 (amended): for every reference store, refTableRaw returns exactly
one entry per stored reference, in the insertion order of the store (ids listed
exactly as stored, not sorted), and each entry carries the brace-stripped
extracted title of its reference - which is empty when the reference has
no usable title. -/
theorem refObjectOfMap_entries (refs : List CSLRef) :
    (refObjectOfMap refs).length = refs.length
    ∧ (refObjectOfMap refs).map (fun e => e.name) = refs.map (fun r => r.id)
    ∧ ∀ e ∈ refObjectOfMap refs,
        ∃ r ∈ refs, e.name = r.id ∧ e.title = stripBraces (extractTitle r.title)
          ∧ e.type = r.type := by
  refine ⟨List.length_map _ _, ?_, ?_⟩
  · unfold refObjectOfMap
    rw [List.map_map]
    rfl
  · intro e he
    rcases List.mem_map.mp he with ⟨r, hr, rfl⟩
    exact ⟨r, hr, rfl, rfl, rfl⟩

/-- C6 (counterexample): bibliographyRaw with showNone true does NOT
always yield the empty string: the empty-store check runs first, so a
session with no references returns the no-references sentinel even under
showNone, whatever the cited-id set holds. -/
theorem showNone_empty_store_not_empty :
    (bibliographyRawM (fun _ => "") [] { citedIds := ["a"] } false true).2
      ≠ "" := by
  decide

/-- C6 (amended): for every session whose reference store is non-empty,
bibliographyRaw with showNone true yields the empty string regardless of
the cited-id set, the cache state and the showAll flag. -/
theorem bibliographyRaw_showNone_empty (render : List String → String)
    (referenceIds : List String) (st : FactoryState) (showAll : Bool)
    (h : referenceIds ≠ []) :
    (bibliographyRawM render referenceIds st showAll true).2 = "" := by
  match referenceIds with
  | [] => exact absurd rfl h
  | r :: rest => rfl

/-- Witness for C6 (amended): a one-reference store with a cited id. -/
theorem bibliographyRaw_showNone_empty_witness :
    ((["r1"] : List String) ≠ [])
    ∧ (bibliographyRawM (fun _ => "") ["r1"] { citedIds := ["a"] } false true).2
      = "" :=
  ⟨by decide,
    bibliographyRaw_showNone_empty (fun _ => "") ["r1"] { citedIds := ["a"] }
      false (by decide)⟩

/-- C7: disposing a session with live bibliography containers THROWS
instead of stopping updates (a code bug): the per-cluster observers are
kept in a WeakMap, and container.dispose calls clusterObservers.values(),
a method WeakMap does not have, so the first container disposal raises a
TypeError that Refs.dispose propagates. Evaluated at a session with two
live containers: the dispose call returns the TypeError; the per-cluster
observers 3 and 4 of the first container stay connected; the second
container is never reached, so its citation-changed listener 6 is still
registered and fires on the event dispatch of a citation created
afterward; and the container set is never cleared. Only a session with no
live containers disposes without throwing. -/
theorem dispose_throws_weakmap_values :
    (sessionDispose ⟨some 5, [⟨1, 2, [3, 4]⟩, ⟨6, 7, [8]⟩]⟩
        ⟨[(CITATION_UPDATED, 1), (CITATION_UPDATED, 6), ("click", 5)],
          [2, 3, 4, 7, 8, 9]⟩).2 = Except.error weakMapValuesError
    ∧ (3 : Nat) ∈ (sessionDispose ⟨some 5, [⟨1, 2, [3, 4]⟩, ⟨6, 7, [8]⟩]⟩
        ⟨[(CITATION_UPDATED, 1), (CITATION_UPDATED, 6), ("click", 5)],
          [2, 3, 4, 7, 8, 9]⟩).1.2.connectedObservers
    ∧ (4 : Nat) ∈ (sessionDispose ⟨some 5, [⟨1, 2, [3, 4]⟩, ⟨6, 7, [8]⟩]⟩
        ⟨[(CITATION_UPDATED, 1), (CITATION_UPDATED, 6), ("click", 5)],
          [2, 3, 4, 7, 8, 9]⟩).1.2.connectedObservers
    ∧ (6 : Nat) ∈ listenersFor (sessionDispose ⟨some 5, [⟨1, 2, [3, 4]⟩, ⟨6, 7, [8]⟩]⟩
        ⟨[(CITATION_UPDATED, 1), (CITATION_UPDATED, 6), ("click", 5)],
          [2, 3, 4, 7, 8, 9]⟩).1.2 CITATION_UPDATED
    ∧ (7 : Nat) ∈ (sessionDispose ⟨some 5, [⟨1, 2, [3, 4]⟩, ⟨6, 7, [8]⟩]⟩
        ⟨[(CITATION_UPDATED, 1), (CITATION_UPDATED, 6), ("click", 5)],
          [2, 3, 4, 7, 8, 9]⟩).1.2.connectedObservers
    ∧ (sessionDispose ⟨some 5, [⟨1, 2, [3, 4]⟩, ⟨6, 7, [8]⟩]⟩
        ⟨[(CITATION_UPDATED, 1), (CITATION_UPDATED, 6), ("click", 5)],
          [2, 3, 4, 7, 8, 9]⟩).1.1.containers = [⟨1, 2, [3, 4]⟩, ⟨6, 7, [8]⟩]
    ∧ (sessionDispose ⟨some 5, []⟩ ⟨[("click", 5)], [9]⟩).2 = Except.ok () :=
  ⟨rfl, by decide, by decide, by decide, by decide, by decide, rfl⟩

/-- C8 (counterexample): with citation linking disabled, the text fields
of an item are NOT left as the caller supplied them: the citation-item
span wrapper is added unconditionally, so the supplied P and S come back
embedded in span markup. -/
theorem wrap_disabled_still_modifies :
    (wrapCitationItem (JSVal.vobj { id := some "x", pfx := some "P", sfx := some "S" })
        "E" false).pfx ≠ some "P"
    ∧ (wrapCitationItem (JSVal.vobj { id := some "x", pfx := some "P", sfx := some "S" })
        "E" false).sfx ≠ some "S" := by
  decide

/-- The span opener is a non-empty string, whatever the interpolated
engine and item ids are. -/
theorem spanOpenStr_length_pos (engineId idStr : String) :
    0 < (spanOpenStr engineId idStr).length := by
  unfold spanOpenStr
  rw [String.length_append, String.length_append, String.length_append,
    String.length_append]
  have h : 0 < ("<span class=\"csl-citation-item\" data-citation-engine-id=\""
      : String).length := by decide
  omega

/-- C8 (amended): wrapping always augments (never drops) the original
text: the new first text field is the span opener, then the original
text, then the anchor opener exactly when linking is enabled; the new
second text field is the anchor closer exactly when linking is enabled,
then the original text, then the span closer; the id is untouched. Even
with linking disabled the fields are rewritten, never left as supplied. -/
theorem wrap_augments (raw : JSVal) (engineId : String) (flag : Bool) :
    (wrapCitationItem raw engineId flag).pfx
      = some (spanOpenStr engineId (idText (rawToItem raw).id)
          ++ (rawToItem raw).pfx.getD ""
          ++ (if flag then linkOpenStr engineId (idText (rawToItem raw).id) else ""))
    ∧ (wrapCitationItem raw engineId flag).sfx
      = some ((if flag then "</a>" else "")
          ++ (rawToItem raw).sfx.getD "" ++ "</span>")
    ∧ (wrapCitationItem raw engineId flag).id = (rawToItem raw).id
    ∧ (wrapCitationItem raw engineId false).pfx ≠ (rawToItem raw).pfx
    ∧ (wrapCitationItem raw engineId false).sfx ≠ (rawToItem raw).sfx := by
  refine ⟨rfl, rfl, rfl, ?_, ?_⟩
  · cases hp : (rawToItem raw).pfx with
    | none => simp [wrapCitationItem, hp]
    | some s =>
      simp only [wrapCitationItem, hp]
      intro h
      have h2 := Option.some.inj h
      have hlen := congrArg String.length h2
      rw [String.length_append, String.length_append] at hlen
      have hpos := spanOpenStr_length_pos engineId (idText (rawToItem raw).id)
      simp [Option.getD] at hlen
      omega
  · cases hp : (rawToItem raw).sfx with
    | none => simp [wrapCitationItem, hp]
    | some s =>
      simp only [wrapCitationItem, hp]
      intro h
      have h2 := Option.some.inj h
      have hlen := congrArg String.length h2
      rw [String.length_append, String.length_append] at hlen
      have : 0 < ("</span>" : String).length := by decide
      simp [Option.getD] at hlen
      omega

/-- A trailing argument that the source treats as cluster properties, on
the reading of the claim: a (non-null) object without an own id property. -/
def isPropsObject (v : JSVal) : Prop := ∃ o, v = JSVal.vobj o ∧ o.id = none

/-- C9 (counterexample): the classification of the final argument is NOT
exhaustive: a null final argument is neither consumed as cluster
properties nor treated as a citation item - the detection test itself
throws (typeof null is object, and null.hasOwnProperty raises a
TypeError). -/
theorem null_trailing_neither_props_nor_item :
    ¬ ((lastArgIsProps [JSVal.vnull] = Except.ok true ↔ isPropsObject JSVal.vnull)
      ∧ (¬ isPropsObject JSVal.vnull →
          lastArgIsProps [JSVal.vnull] = Except.ok false)) := by
  rintro ⟨_, h2⟩
  have hnp : ¬ isPropsObject JSVal.vnull := by
    rintro ⟨o, ho, _⟩
    cases ho
  have h3 := h2 hnp
  have h4 : lastArgIsProps [JSVal.vnull] = Except.error nullPropError := rfl
  rw [h4] at h3
  cases h3

/-- C9 (amended): for every call whose final argument is not null, the
final argument is consumed as the cluster properties object exactly when
it is an object without an own id property, and is otherwise kept as a
citation item; a null final argument instead makes the detection test
throw (recovered as an inline marker by the factory, propagated by the
wrapper methods). -/
theorem trailing_arg_classification (init : List JSVal) (last : JSVal)
    (h : last ≠ JSVal.vnull) :
    (lastArgIsProps (init ++ [last]) = Except.ok true ↔ isPropsObject last)
    ∧ (¬ isPropsObject last →
        lastArgIsProps (init ++ [last]) = Except.ok false) := by
  have hl : (init ++ [last]).getLast? = some last := by simp
  cases last with
  | vnull => exact absurd rfl h
  | vstr s =>
    constructor
    · rw [lastArgIsProps, hl]
      simp [isTypeofObject, isPropsObject]
    · intro _
      rw [lastArgIsProps, hl]
      simp [isTypeofObject]
  | vobj o =>
    cases ho : o.id with
    | none =>
      constructor
      · rw [lastArgIsProps, hl]
        simp [isTypeofObject, hasOwnId, ho, isPropsObject]
      · intro hnp
        exact absurd ⟨o, rfl, ho⟩ hnp
    | some s =>
      constructor
      · rw [lastArgIsProps, hl]
        simp [isTypeofObject, hasOwnId, ho, isPropsObject]
      · intro _
        rw [lastArgIsProps, hl]
        simp [isTypeofObject, hasOwnId, ho]

/-- Witness for C9 (amended): an id-less object is consumed as
properties; a string id is kept as a citation item. -/
theorem trailing_arg_classification_witness :
    (JSVal.vobj { id := none } ≠ JSVal.vnull)
    ∧ ((lastArgIsProps [JSVal.vstr "a", JSVal.vobj { id := none }] = Except.ok true
        ↔ isPropsObject (JSVal.vobj { id := none }))
      ∧ (¬ isPropsObject (JSVal.vobj { id := none }) →
          lastArgIsProps [JSVal.vstr "a", JSVal.vobj { id := none }]
            = Except.ok false)) :=
  ⟨by decide,
    trailing_arg_classification [JSVal.vstr "a"] (JSVal.vobj { id := none })
      (by decide)⟩

/-- C10: the cache key is not injective over cited-id sets: the singleton
set holding the id a|b and the two-id set a, b are different sets with the
same sorted-joined key, and a session whose cited-mode engine was built
for the first set does not rebuild it after moving to the second set -
bibliographyRaw keeps the stale engine scope a|b. -/
theorem citedKey_not_injective :
    citedKey ["a|b"] = citedKey ["a", "b"]
    ∧ (["a|b"] : List String).toFinset ≠ (["a", "b"] : List String).toFinset
    ∧ (bibliographyRawM (fun _ => "") ["a", "b", "a|b"]
        { citedIds := ["a", "b"], lastCitedKey := citedKey ["a|b"],
          cachedOffline := some ["a|b"] } false false).1.cachedOffline
      = some ["a|b"] := by
  decide

end RefsJs
